import Mathlib

set_option maxHeartbeats 1000000

/-!
Verification of the command interpretation engine of the OR voice assistant
(`backend/app.py`): the intent parser `parse_command`, the rule-based
responder `generate_rule_based_response`, the capability wrappers
`get_llm_response` and `generate_speech`, and the response assembler
`process_voice_command`, modelled shallowly in Lean.

Python strings are modelled as lists of characters; `str.lower` is modelled
on the ASCII range by `Char.toLower` (all keywords involved are ASCII);
Python floats appearing as zoom factors are modelled as rationals; Python
dictionaries read by the responder are modelled as ordered association
lists, so that a missing key is representable and subscripting a missing
key is a `KeyError` value rather than a result.
-/

/-- Python strings, modelled as lists of characters. -/
abbrev Str := List Char

/-- The character list of a Lean string literal. -/
def lit (s : String) : Str := s.data

/-- Python `s.lower()` (ASCII case folding). -/
def lower (s : Str) : Str := s.map Char.toLower

/-- Python `needle in hay` substring containment test. -/
def hasSub (hay needle : Str) : Bool :=
  match hay with
  | [] => needle.isEmpty
  | c :: t => needle.isPrefixOf (c :: t) || hasSub t needle

/-- Payload dictionaries attached to display commands by the parser
(`data` keys `filename`, `seriesId`, `zoom_level`, `direction`/`angle`). -/
inductive CmdData where
  | filename (name : Str)
  | seriesId (id : Str)
  | zoomLevel (level : ℚ)
  | rotation (direction : Str) (angle : Int)
  deriving DecidableEq

/-- Display command records produced by `parse_command`. -/
structure DisplayCommand where
  action : Str
  target : Str
  position : Option Str := none
  data : Option CmdData := none
  deriving DecidableEq

/-- Transcription-session command records produced by `parse_command`. -/
structure TranscriptionCmd where
  action : Str
  procedure_type : Option Str := none
  deriving DecidableEq

/-- Result record of `parse_command`. -/
structure ParsedCommand where
  command_type : Str
  display_commands : List DisplayCommand
  transcription_commands : List TranscriptionCmd
  query : Str
  deriving DecidableEq

/-- Python `re.search(r'(\d{8})', s)`: the first run of eight consecutive
decimal digits in `s`, searched left to right. -/
def find8digits : Str → Option Str
  | [] => none
  | c :: t =>
    let w := (c :: t).take 8
    if w.length = 8 && w.all Char.isDigit then some w else find8digits t

/-- Lab-results display rule of the show/display block (app.py lines
340-345): `show lab_results` positioned left/right/center. -/
def labPart (tl : Str) : List DisplayCommand :=
  if hasSub tl (lit "lab") then
    [{ action := lit "show", target := lit "lab_results",
       position := some (if hasSub tl (lit "left") then lit "left"
         else if hasSub tl (lit "right") then lit "right" else lit "center") }]
  else []

/-- Imaging display rule (lines 346-351). -/
def imagingPart (tl : Str) : List DisplayCommand :=
  if hasSub tl (lit "imaging") || hasSub tl (lit "image") then
    [{ action := lit "show", target := lit "imaging", position := some (lit "center") }]
  else []

/-- Vitals display rule (lines 352-357). -/
def vitalPart (tl : Str) : List DisplayCommand :=
  if hasSub tl (lit "vital") then
    [{ action := lit "show", target := lit "vitals", position := some (lit "right") }]
  else []

/-- VTK display rule (lines 358-367); the filename is `CPO_ist.vtk` in both
branches of the source's redundant `if "cpo"` conditional. -/
def vtkPart (tl : Str) : List DisplayCommand :=
  if hasSub tl (lit "vtk") || hasSub tl (lit "3d") || hasSub tl (lit "cpo") then
    let filename := if hasSub tl (lit "cpo") then lit "CPO_ist.vtk" else lit "CPO_ist.vtk"
    [{ action := lit "show", target := lit "vtk", data := some (.filename filename) }]
  else []

/-- DICOM display rule (lines 368-378): series id is the first 8-digit run
of the lower-cased transcript, defaulting to `17155540`. -/
def dicomPart (tl : Str) : List DisplayCommand :=
  if hasSub tl (lit "dicom") || hasSub tl (lit "scan")
      || (hasSub tl (lit "image") && hasSub tl (lit "medical")) then
    [{ action := lit "show", target := lit "dicom",
       data := some (.seriesId ((find8digits tl).getD (lit "17155540"))) }]
  else []

/-- Show/display block (lines 339-378), guarded by "show" or "display". -/
def showBlock (tl : Str) : List DisplayCommand :=
  if hasSub tl (lit "show") || hasSub tl (lit "display") then
    labPart tl ++ imagingPart tl ++ vitalPart tl ++ vtkPart tl ++ dicomPart tl
  else []

/-- Zoom block (lines 380-396): `zoom 3d` with factor resolved by
2x, then 3x, then "zoom out"/"out", then the default 1.5. -/
def zoomBlock (tl : Str) : List DisplayCommand :=
  if hasSub tl (lit "zoom") then
    if hasSub tl (lit "3d") || hasSub tl (lit "model") then
      let zoom_level : ℚ :=
        if hasSub tl (lit "2x") then 2
        else if hasSub tl (lit "3x") then 3
        else if hasSub tl (lit "zoom out") || hasSub tl (lit "out") then 1 / (3 / 2)
        else 3 / 2
      [{ action := lit "zoom", target := lit "3d", data := some (.zoomLevel zoom_level) }]
    else []
  else []

/-- Reset block (lines 398-402). -/
def resetBlock (tl : Str) : List DisplayCommand :=
  if hasSub tl (lit "reset") && (hasSub tl (lit "view") || hasSub tl (lit "3d")) then
    [{ action := lit "reset", target := lit "3d" }]
  else []

/-- Next-image DICOM navigation block (lines 405-409). -/
def nextBlock (tl : Str) : List DisplayCommand :=
  if hasSub tl (lit "next") && (hasSub tl (lit "image") || hasSub tl (lit "slice")) then
    [{ action := lit "next", target := lit "dicom" }]
  else []

/-- Previous-image DICOM navigation block (lines 411-415). -/
def prevBlock (tl : Str) : List DisplayCommand :=
  if hasSub tl (lit "previous") && (hasSub tl (lit "image") || hasSub tl (lit "slice")) then
    [{ action := lit "previous", target := lit "dicom" }]
  else []

/-- Rotate block (lines 418-425): direction left/right defaulting left,
angle constant 15 degrees. -/
def rotateBlock (tl : Str) : List DisplayCommand :=
  if hasSub tl (lit "rotate")
      && (hasSub tl (lit "view") || hasSub tl (lit "3d") || hasSub tl (lit "model")) then
    [{ action := lit "rotate", target := lit "3d",
       data := some (.rotation
         (if hasSub tl (lit "left") then lit "left"
          else if hasSub tl (lit "right") then lit "right" else lit "left") 15) }]
  else []

/-- Close/hide block (lines 428-453): a single mutually exclusive if/elif
chain resolving at most one close target. -/
def closeBlock (tl : Str) : List DisplayCommand :=
  if hasSub tl (lit "close") || hasSub tl (lit "hide") then
    if hasSub tl (lit "patient") then
      [{ action := lit "close", target := lit "patient" }]
    else if hasSub tl (lit "monitoring") || hasSub tl (lit "vitals") then
      [{ action := lit "close", target := lit "monitoring" }]
    else if hasSub tl (lit "3d") || hasSub tl (lit "vtk") then
      [{ action := lit "close", target := lit "3d" }]
    else if hasSub tl (lit "dicom") || hasSub tl (lit "image") then
      [{ action := lit "close", target := lit "dicom" }]
    else if hasSub tl (lit "voice") || hasSub tl (lit "command") then
      [{ action := lit "close", target := lit "voice" }]
    else []
  else []

/-- Open-panel block (lines 456-481), same target resolution as close. -/
def openBlock (tl : Str) : List DisplayCommand :=
  if hasSub tl (lit "open") && hasSub tl (lit "panel") then
    if hasSub tl (lit "patient") then
      [{ action := lit "open", target := lit "patient" }]
    else if hasSub tl (lit "monitoring") || hasSub tl (lit "vitals") then
      [{ action := lit "open", target := lit "monitoring" }]
    else if hasSub tl (lit "3d") || hasSub tl (lit "vtk") then
      [{ action := lit "open", target := lit "3d" }]
    else if hasSub tl (lit "dicom") || hasSub tl (lit "image") then
      [{ action := lit "open", target := lit "dicom" }]
    else if hasSub tl (lit "voice") || hasSub tl (lit "command") then
      [{ action := lit "open", target := lit "voice" }]
    else []
  else []

/-- Transcription control commands (lines 313-334), in source append order. -/
def parseTranscription (tl pt : Str) : List TranscriptionCmd :=
  (if hasSub tl (lit "start transcription") then
    [({ action := lit "start_transcription", procedure_type := some pt } : TranscriptionCmd)]
   else [])
  ++ (if hasSub tl (lit "stop transcription") then
    [({ action := lit "stop_transcription" } : TranscriptionCmd)] else [])
  ++ (if hasSub tl (lit "create doctor") && hasSub tl (lit "letter") then
    [({ action := lit "generate_letter" } : TranscriptionCmd)] else [])
  ++ (if hasSub tl (lit "show doctor") && hasSub tl (lit "letter") then
    [({ action := lit "show_letter" } : TranscriptionCmd)] else [])

/-- Display control commands (lines 337-481), in source append order. -/
def parseDisplay (tl : Str) : List DisplayCommand :=
  showBlock tl ++ zoomBlock tl ++ resetBlock tl ++ nextBlock tl
    ++ prevBlock tl ++ rotateBlock tl ++ closeBlock tl ++ openBlock tl

/-- Command-type classification (lines 483-490): the source assigns
`query`, then overwrites with `control`, `transcription`, `alert` in turn. -/
def commandTypeOf (tl : Str) (dc : List DisplayCommand) (tc : List TranscriptionCmd) : Str :=
  let ct := lit "query"
  let ct := if !dc.isEmpty then lit "control" else ct
  let ct := if !tc.isEmpty then lit "transcription" else ct
  if hasSub tl (lit "alert") || hasSub tl (lit "warning") then lit "alert" else ct

/-- The intent parser `parse_command` (app.py lines 309-497). -/
def parse_command (transcript procedure_type : Str) : ParsedCommand :=
  let tl := lower transcript
  { command_type := commandTypeOf tl (parseDisplay tl) (parseTranscription tl procedure_type),
    display_commands := parseDisplay tl,
    transcription_commands := parseTranscription tl procedure_type,
    query := transcript }

example : hasSub (lit "show labs and vitals") (lit "lab") = true := by decide
example : hasSub (lit "hello") (lit "lab") = false := by decide

example :
    (parse_command (lit "show labs and vitals") (lit "pad_angioplasty")).display_commands =
      [{ action := lit "show", target := lit "lab_results", position := some (lit "center") },
       { action := lit "show", target := lit "vitals", position := some (lit "right") }] := by
  decide

/-- Predicate selecting display commands with a given action name. -/
def actionIs (a : Str) (c : DisplayCommand) : Bool := c.action == a

lemma filter_actionIs_nil {l : List DisplayCommand} {a : Str}
    (h : ∀ c ∈ l, c.action = a) {b : Str} (hab : (a == b) = false) :
    l.filter (actionIs b) = [] := by
  rw [List.filter_eq_nil_iff]
  intro c hc
  simp [actionIs, h c hc, hab]

lemma filter_actionIs_self {l : List DisplayCommand} {a : Str}
    (h : ∀ c ∈ l, c.action = a) : l.filter (actionIs a) = l := by
  rw [List.filter_eq_self]
  intro c hc
  simp [actionIs, h c hc]

lemma labPart_action (tl : Str) : ∀ c ∈ labPart tl, c.action = lit "show" := by
  intro c hc; unfold labPart at hc; repeat' split at hc
  all_goals simp_all

lemma imagingPart_action (tl : Str) : ∀ c ∈ imagingPart tl, c.action = lit "show" := by
  intro c hc; unfold imagingPart at hc; repeat' split at hc
  all_goals simp_all

lemma vitalPart_action (tl : Str) : ∀ c ∈ vitalPart tl, c.action = lit "show" := by
  intro c hc; unfold vitalPart at hc; repeat' split at hc
  all_goals simp_all

lemma vtkPart_action (tl : Str) : ∀ c ∈ vtkPart tl, c.action = lit "show" := by
  intro c hc; unfold vtkPart at hc; repeat' split at hc
  all_goals simp_all

lemma dicomPart_action (tl : Str) : ∀ c ∈ dicomPart tl, c.action = lit "show" := by
  intro c hc
  unfold dicomPart at hc
  cases hcond : (hasSub tl (lit "dicom") || hasSub tl (lit "scan")
      || (hasSub tl (lit "image") && hasSub tl (lit "medical"))) <;>
    simp [hcond] at hc
  subst hc
  rfl

lemma action_append {l₁ l₂ : List DisplayCommand} {a : Str}
    (h₁ : ∀ c ∈ l₁, c.action = a) (h₂ : ∀ c ∈ l₂, c.action = a) :
    ∀ c ∈ l₁ ++ l₂, c.action = a := by
  intro c hc
  rcases List.mem_append.mp hc with h | h
  · exact h₁ c h
  · exact h₂ c h

lemma showBlock_action (tl : Str) : ∀ c ∈ showBlock tl, c.action = lit "show" := by
  intro c hc
  unfold showBlock at hc
  split at hc
  · exact action_append
      (action_append
        (action_append
          (action_append (labPart_action tl) (imagingPart_action tl))
          (vitalPart_action tl))
        (vtkPart_action tl))
      (dicomPart_action tl) c hc
  · simp at hc

lemma zoomBlock_action (tl : Str) : ∀ c ∈ zoomBlock tl, c.action = lit "zoom" := by
  intro c hc; unfold zoomBlock at hc; repeat' split at hc
  all_goals simp_all

lemma resetBlock_action (tl : Str) : ∀ c ∈ resetBlock tl, c.action = lit "reset" := by
  intro c hc; unfold resetBlock at hc; repeat' split at hc
  all_goals simp_all

lemma nextBlock_action (tl : Str) : ∀ c ∈ nextBlock tl, c.action = lit "next" := by
  intro c hc; unfold nextBlock at hc; repeat' split at hc
  all_goals simp_all

lemma prevBlock_action (tl : Str) : ∀ c ∈ prevBlock tl, c.action = lit "previous" := by
  intro c hc; unfold prevBlock at hc; repeat' split at hc
  all_goals simp_all

lemma rotateBlock_action (tl : Str) : ∀ c ∈ rotateBlock tl, c.action = lit "rotate" := by
  intro c hc; unfold rotateBlock at hc; repeat' split at hc
  all_goals simp_all

lemma closeBlock_action (tl : Str) : ∀ c ∈ closeBlock tl, c.action = lit "close" := by
  intro c hc; unfold closeBlock at hc; repeat' split at hc
  all_goals simp_all

lemma openBlock_action (tl : Str) : ∀ c ∈ openBlock tl, c.action = lit "open" := by
  intro c hc; unfold openBlock at hc; repeat' split at hc
  all_goals simp_all

lemma parseDisplay_filter_close (tl : Str) :
    (parseDisplay tl).filter (actionIs (lit "close")) = closeBlock tl := by
  unfold parseDisplay
  simp only [List.filter_append]
  rw [filter_actionIs_nil (showBlock_action tl) (by decide),
      filter_actionIs_nil (zoomBlock_action tl) (by decide),
      filter_actionIs_nil (resetBlock_action tl) (by decide),
      filter_actionIs_nil (nextBlock_action tl) (by decide),
      filter_actionIs_nil (prevBlock_action tl) (by decide),
      filter_actionIs_nil (rotateBlock_action tl) (by decide),
      filter_actionIs_self (closeBlock_action tl),
      filter_actionIs_nil (openBlock_action tl) (by decide)]
  simp

lemma parseDisplay_filter_show (tl : Str) :
    (parseDisplay tl).filter (actionIs (lit "show")) = showBlock tl := by
  unfold parseDisplay
  simp only [List.filter_append]
  rw [filter_actionIs_self (showBlock_action tl),
      filter_actionIs_nil (zoomBlock_action tl) (by decide),
      filter_actionIs_nil (resetBlock_action tl) (by decide),
      filter_actionIs_nil (nextBlock_action tl) (by decide),
      filter_actionIs_nil (prevBlock_action tl) (by decide),
      filter_actionIs_nil (rotateBlock_action tl) (by decide),
      filter_actionIs_nil (closeBlock_action tl) (by decide),
      filter_actionIs_nil (openBlock_action tl) (by decide)]
  simp

lemma parseDisplay_filter_zoom (tl : Str) :
    (parseDisplay tl).filter (actionIs (lit "zoom")) = zoomBlock tl := by
  unfold parseDisplay
  simp only [List.filter_append]
  rw [filter_actionIs_nil (showBlock_action tl) (by decide),
      filter_actionIs_self (zoomBlock_action tl),
      filter_actionIs_nil (resetBlock_action tl) (by decide),
      filter_actionIs_nil (nextBlock_action tl) (by decide),
      filter_actionIs_nil (prevBlock_action tl) (by decide),
      filter_actionIs_nil (rotateBlock_action tl) (by decide),
      filter_actionIs_nil (closeBlock_action tl) (by decide),
      filter_actionIs_nil (openBlock_action tl) (by decide)]
  simp

lemma commandTypeOf_spec (tl : Str) (dc : List DisplayCommand) (tc : List TranscriptionCmd) :
    commandTypeOf tl dc tc =
      (if hasSub tl (lit "alert") || hasSub tl (lit "warning") then lit "alert"
       else if tc ≠ [] then lit "transcription"
       else if dc ≠ [] then lit "control"
       else lit "query") := by
  cases hb : (hasSub tl (lit "alert") || hasSub tl (lit "warning")) <;>
    cases dc <;> cases tc <;> simp [commandTypeOf, hb]

/-- C1: `command_type` is derived from the parser's other outputs by fixed
priority: "alert" when the lower-cased transcript contains "alert" or
"warning" (even when display or transcription commands exist), otherwise
"transcription" when transcription commands exist, otherwise "control" when
display commands exist, otherwise "query". -/
theorem command_type_priority (t pt : Str) :
    (parse_command t pt).command_type =
      (if hasSub (lower t) (lit "alert") || hasSub (lower t) (lit "warning") then lit "alert"
       else if (parse_command t pt).transcription_commands ≠ [] then lit "transcription"
       else if (parse_command t pt).display_commands ≠ [] then lit "control"
       else lit "query") := by
  simp only [parse_command]
  exact commandTypeOf_spec (lower t) (parseDisplay (lower t)) (parseTranscription (lower t) pt)

/-- C2: for any transcript, the close-action display commands are produced
by the mutually exclusive ordered checks patient, monitoring/vitals,
3d/vtk, dicom/image, voice/command — so at most one close command, and none
when no target keyword occurs; for "close patient and vitals" exactly one
close command is emitted, targeting "patient". -/
theorem close_target_resolution (t pt : Str) :
    ((parse_command t pt).display_commands.filter (actionIs (lit "close")) =
      (if hasSub (lower t) (lit "close") || hasSub (lower t) (lit "hide") then
        if hasSub (lower t) (lit "patient") then
          [{ action := lit "close", target := lit "patient" }]
        else if hasSub (lower t) (lit "monitoring") || hasSub (lower t) (lit "vitals") then
          [{ action := lit "close", target := lit "monitoring" }]
        else if hasSub (lower t) (lit "3d") || hasSub (lower t) (lit "vtk") then
          [{ action := lit "close", target := lit "3d" }]
        else if hasSub (lower t) (lit "dicom") || hasSub (lower t) (lit "image") then
          [{ action := lit "close", target := lit "dicom" }]
        else if hasSub (lower t) (lit "voice") || hasSub (lower t) (lit "command") then
          [{ action := lit "close", target := lit "voice" }]
        else []
      else [])) ∧
    (parse_command (lit "close patient and vitals") pt).display_commands =
      [{ action := lit "close", target := lit "patient" }] := by
  constructor
  · simp only [parse_command]
    rw [parseDisplay_filter_close]
    rfl
  · simp only [parse_command]
    decide

/-- C3: the show-action display commands are exactly the show/display block
evaluated in its fixed rule order (lab_results, imaging, vitals, vtk,
dicom); for "show labs and vitals" the parser returns exactly two display
commands, `show lab_results` at center followed by `show vitals` at right. -/
theorem show_rules_order (t pt : Str) :
    ((parse_command t pt).display_commands.filter (actionIs (lit "show")) =
      showBlock (lower t)) ∧
    (parse_command (lit "show labs and vitals") pt).display_commands =
      [{ action := lit "show", target := lit "lab_results", position := some (lit "center") },
       { action := lit "show", target := lit "vitals", position := some (lit "right") }] := by
  constructor
  · simp only [parse_command]
    exact parseDisplay_filter_show (lower t)
  · simp only [parse_command]
    decide

/-- C4: a transcript containing "zoom" and "3d" or "model" produces exactly
one zoom command targeting "3d", with zoom_level resolved by first match:
"2x" gives 2.0, else "3x" gives 3.0, else "zoom out"/"out" gives 1/1.5,
else the default 1.5; instances for the three example transcripts. -/
theorem zoom_level_resolution (t pt : Str) :
    ((parse_command t pt).display_commands.filter (actionIs (lit "zoom")) =
      (if hasSub (lower t) (lit "zoom")
          && (hasSub (lower t) (lit "3d") || hasSub (lower t) (lit "model")) then
        [{ action := lit "zoom", target := lit "3d",
           data := some (.zoomLevel (
             if hasSub (lower t) (lit "2x") then 2
             else if hasSub (lower t) (lit "3x") then 3
             else if hasSub (lower t) (lit "zoom out") || hasSub (lower t) (lit "out") then
               1 / (3 / 2)
             else 3 / 2)) }]
      else [])) ∧
    (parse_command (lit "zoom 3d model 2x") pt).display_commands =
      [{ action := lit "zoom", target := lit "3d", data := some (.zoomLevel 2) }] ∧
    (parse_command (lit "zoom 3d model") pt).display_commands =
      [{ action := lit "zoom", target := lit "3d", data := some (.zoomLevel (3 / 2)) }] ∧
    (parse_command (lit "zoom out 3d model") pt).display_commands =
      [{ action := lit "zoom", target := lit "3d", data := some (.zoomLevel (1 / (3 / 2))) }] := by
  refine ⟨?_, ?_, ?_, ?_⟩
  · simp only [parse_command]
    rw [parseDisplay_filter_zoom]
    unfold zoomBlock
    cases h1 : hasSub (lower t) (lit "zoom") <;>
      cases h2 : (hasSub (lower t) (lit "3d") || hasSub (lower t) (lit "model")) <;>
        simp [h1, h2]
  · rfl
  · rfl
  · rfl

/-- The trigger keywords of the parser: every rule of `parse_command`
requires at least one of these substrings in the lower-cased transcript. -/
def triggerKeywords : List Str :=
  [lit "show", lit "display", lit "zoom", lit "reset", lit "next",
   lit "previous", lit "rotate", lit "close", lit "hide", lit "open",
   lit "start transcription", lit "stop transcription", lit "letter",
   lit "alert", lit "warning"]

/-- C5: a transcript containing none of the trigger keywords — the empty
transcript included — parses to command_type "query" with empty display
and transcription command lists, and this is an ordinary result. -/
theorem no_trigger_keywords_query (t pt : Str)
    (h : ∀ k ∈ triggerKeywords, hasSub (lower t) k = false) :
    parse_command t pt =
      { command_type := lit "query", display_commands := [],
        transcription_commands := [], query := t } := by
  have h1 := h (lit "show") (by simp [triggerKeywords])
  have h2 := h (lit "display") (by simp [triggerKeywords])
  have h3 := h (lit "zoom") (by simp [triggerKeywords])
  have h4 := h (lit "reset") (by simp [triggerKeywords])
  have h5 := h (lit "next") (by simp [triggerKeywords])
  have h6 := h (lit "previous") (by simp [triggerKeywords])
  have h7 := h (lit "rotate") (by simp [triggerKeywords])
  have h8 := h (lit "close") (by simp [triggerKeywords])
  have h9 := h (lit "hide") (by simp [triggerKeywords])
  have h10 := h (lit "open") (by simp [triggerKeywords])
  have h11 := h (lit "start transcription") (by simp [triggerKeywords])
  have h12 := h (lit "stop transcription") (by simp [triggerKeywords])
  have h13 := h (lit "letter") (by simp [triggerKeywords])
  have h14 := h (lit "alert") (by simp [triggerKeywords])
  have h15 := h (lit "warning") (by simp [triggerKeywords])
  simp [parse_command, parseDisplay, parseTranscription, commandTypeOf,
    showBlock, zoomBlock, resetBlock, nextBlock, prevBlock, rotateBlock,
    closeBlock, openBlock,
    h1, h2, h3, h4, h5, h6, h7, h8, h9, h10, h11, h12, h13, h14, h15]

theorem no_trigger_keywords_query_witness :
    (∀ k ∈ triggerKeywords, hasSub (lower (lit "")) k = false) ∧
    parse_command (lit "") (lit "pad_angioplasty") =
      { command_type := lit "query", display_commands := [],
        transcription_commands := [], query := lit "" } :=
  ⟨by decide, no_trigger_keywords_query (lit "") (lit "pad_angioplasty") (by decide)⟩

/-- Ordered association list modelling a Python dict (insertion order). -/
abbrev Dict (α : Type) : Type := List (Str × α)

/-- Python `d.get(k)` on a dict: `none` when the key is absent. -/
def dget {α : Type} (d : Dict α) (k : Str) : Option α :=
  (d.find? (fun p => p.1 == k)).map (fun p => p.2)

/-- Python `d.get(k, default)`. -/
def dgetD {α : Type} (d : Dict α) (k : Str) (v : α) : α := (dget d k).getD v

/-- Exceptions the modelled code can raise. -/
inductive PyErr where
  | keyError (key : Str)
  | attributeError
  deriving DecidableEq

/-- Python `d[k]` subscripting: `KeyError` when the key is absent. -/
def item {α : Type} (d : Dict α) (k : Str) : Except PyErr α :=
  match dget d k with
  | some v => .ok v
  | none => .error (.keyError k)

/-- Scalar values stored in the patient dataset (lab sub-fields). -/
inductive Atom where
  | int (n : Int)
  | rat (q : ℚ)
  | str (s : Str)
  deriving DecidableEq

/-- A lab record such as `creatinine` or `inr`: a dict of scalar
sub-fields (`value`, `unit`, `egfr`, `date`, ...), any of which may be
absent — this is what makes a partially populated entry expressible. -/
abbrev LabEntry : Type := Dict Atom

/-- The `patient` sub-dict of a procedure: the two keys the responder
reads; `none` models an absent key. -/
structure Patient where
  labs : Option (Dict LabEntry) := none
  allergies : Option (List Str) := none
  deriving DecidableEq

/-- A procedure entry of the dataset: the keys the responder reads.
`intraopData` holds the numeric intra-operative metrics
(`contrastUsed`, `maxContrast`). -/
structure Procedure where
  patient : Option Patient := none
  intraopData : Option (Dict Int) := none
  deriving DecidableEq

/-- Python truthiness of a procedure dict: non-empty, i.e. at least one
of its (modelled) keys is present. -/
def Procedure.truthy (p : Procedure) : Bool :=
  p.patient.isSome || p.intraopData.isSome

/-- The loaded `mock_data` dataset; the responder reads only the
`procedures` table. An entirely empty/unloaded dataset (`{}`, falsy in
Python) is modelled as `none` at the use sites below. -/
structure MockData where
  procedures : Option (Dict Procedure) := none
  deriving DecidableEq

/-- Rendering of a scalar into an f-string. -/
def fmtAtom : Atom → Str
  | .int n => lit (toString n)
  | .rat q => lit (toString q)
  | .str s => s

/-- VTK/3D category of `generate_rule_based_response` (app.py lines
526-534): `some` when the category returns, `none` when control falls
through to the next category. -/
def vtkBranch (ql : Str) : Option (Except PyErr Str) :=
  if hasSub ql (lit "vtk") || hasSub ql (lit "3d") || hasSub ql (lit "cpo") then
    if hasSub ql (lit "open") || hasSub ql (lit "load") || hasSub ql (lit "show") then
      some (.ok (lit "Loading VTK file for 3D visualization. The model will appear in the 3D viewer panel."))
    else if hasSub ql (lit "zoom") then
      some (.ok (lit "Zooming 3D model view. Use voice commands to control the visualization."))
    else if hasSub ql (lit "reset") then
      some (.ok (lit "Resetting 3D view orientation to default position."))
    else if hasSub ql (lit "rotate") then
      some (.ok (lit "Rotating 3D model view. Use voice commands to control the orientation."))
    else none
  else none

/-- DICOM/imaging category (lines 537-545). -/
def dicomBranch (ql : Str) : Option (Except PyErr Str) :=
  if hasSub ql (lit "dicom") || hasSub ql (lit "scan")
      || (hasSub ql (lit "image")
          && (hasSub ql (lit "medical") || hasSub ql (lit "ct") || hasSub ql (lit "mri")
              || hasSub ql (lit "xray") || hasSub ql (lit "x-ray"))) then
    if hasSub ql (lit "open") || hasSub ql (lit "load") || hasSub ql (lit "show") then
      some (.ok (lit "Loading DICOM medical images. The images will appear in the DICOM viewer panel. Use mouse wheel or voice commands to navigate through the series."))
    else if hasSub ql (lit "next") then
      some (.ok (lit "Moving to next DICOM image in the series."))
    else if hasSub ql (lit "previous") || hasSub ql (lit "prev") then
      some (.ok (lit "Moving to previous DICOM image in the series."))
    else if hasSub ql (lit "series") then
      some (.ok (lit "DICOM series contains multiple medical images. Use navigation commands to scroll through them."))
    else none
  else none

/-- Panel close/hide category (lines 548-560); its final `else` returns an
instructional prompt, so the category always returns once triggered. -/
def closeRespBranch (ql : Str) : Option (Except PyErr Str) :=
  if hasSub ql (lit "close") || hasSub ql (lit "hide") then
    some (.ok (
      if hasSub ql (lit "patient") then lit "Closing patient information panel."
      else if hasSub ql (lit "monitoring") || hasSub ql (lit "vitals") then
        lit "Closing procedural monitoring panel."
      else if hasSub ql (lit "3d") || hasSub ql (lit "vtk") then
        lit "Closing 3D visualization panel."
      else if hasSub ql (lit "dicom") || hasSub ql (lit "image") then
        lit "Closing DICOM viewer panel."
      else if hasSub ql (lit "voice") || hasSub ql (lit "command") then
        lit "Closing voice command panel."
      else lit "Please specify which panel to close: patient, monitoring, 3D, DICOM, or voice."))
  else none

/-- Panel open category (lines 563-575). -/
def openRespBranch (ql : Str) : Option (Except PyErr Str) :=
  if hasSub ql (lit "open") && hasSub ql (lit "panel") then
    some (.ok (
      if hasSub ql (lit "patient") then lit "Opening patient information panel."
      else if hasSub ql (lit "monitoring") || hasSub ql (lit "vitals") then
        lit "Opening procedural monitoring panel."
      else if hasSub ql (lit "3d") || hasSub ql (lit "vtk") then
        lit "Opening 3D visualization panel."
      else if hasSub ql (lit "dicom") || hasSub ql (lit "image") then
        lit "Opening DICOM viewer panel."
      else if hasSub ql (lit "voice") || hasSub ql (lit "command") then
        lit "Opening voice command panel."
      else lit "Please specify which panel to open: patient, monitoring, 3D, DICOM, or voice."))
  else none

/-- Creatinine lookup loop (lines 579-583): the first procedure whose
patient has a truthy `labs.creatinine` entry returns a formatted answer —
subscripting `value`/`unit` there may raise `KeyError` — otherwise the
loop exhausts and control falls through. -/
def creatinineLoop : List (Str × Procedure) → Option (Except PyErr Str)
  | [] => none
  | (_, proc) :: rest =>
    match proc.patient with
    | some pat =>
      match pat.labs with
      | some labs =>
        match dget labs (lit "creatinine") with
        | some creat =>
          if !creat.isEmpty then
            some (do
              let v ← item creat (lit "value")
              let u ← item creat (lit "unit")
              let e := dgetD creat (lit "egfr") (.str (lit "not available"))
              pure (lit "Creatinine is " ++ fmtAtom v ++ lit " " ++ fmtAtom u
                ++ lit ", eGFR " ++ fmtAtom e
                ++ lit ". Consider contrast nephropathy risk."))
          else creatinineLoop rest
        | none => creatinineLoop rest
      | none => creatinineLoop rest
    | none => creatinineLoop rest

/-- Creatinine category (lines 578-583). -/
def creatinineBranch (ql : Str) (md : MockData) : Option (Except PyErr Str) :=
  if hasSub ql (lit "creatinine") then creatinineLoop (md.procedures.getD [])
  else none

/-- Contrast category (lines 585-591): defaults 0 used / 100 maximum. -/
def contrastBranch (ql : Str) (md : MockData) : Option (Except PyErr Str) :=
  if hasSub ql (lit "contrast") then
    match dget (md.procedures.getD []) (lit "pad_angioplasty") with
    | some pad =>
      if pad.truthy then
        let intraop := pad.intraopData.getD []
        let used := dgetD intraop (lit "contrastUsed") 0
        let maxc := dgetD intraop (lit "maxContrast") 100
        some (.ok (lit "Contrast used: " ++ lit (toString used)
          ++ lit "mL of maximum " ++ lit (toString maxc) ++ lit "mL. "
          ++ lit (toString (maxc - used)) ++ lit "mL remaining."))
      else none
    | none => none
  else none

/-- Allergy lookup loop (lines 594-597): first procedure with a non-empty
allergy list. -/
def allergyLoop : List (Str × Procedure) → Option (Except PyErr Str)
  | [] => none
  | (_, proc) :: rest =>
    let allergies := ((proc.patient.map Patient.allergies).getD none).getD []
    if !allergies.isEmpty then
      some (.ok (lit "Patient allergies: " ++ (allergies.intersperse (lit ", ")).flatten
        ++ lit ". Use with caution."))
    else allergyLoop rest

/-- Allergy category (lines 593-597). -/
def allergyBranch (ql : Str) (md : MockData) : Option (Except PyErr Str) :=
  if hasSub ql (lit "allerg") then allergyLoop (md.procedures.getD [])
  else none

/-- INR lookup loop (lines 601-605), analogous to creatinine: subscripting
`value`/`date` of a truthy `inr` entry may raise `KeyError`. -/
def inrLoop : List (Str × Procedure) → Option (Except PyErr Str)
  | [] => none
  | (_, proc) :: rest =>
    match proc.patient with
    | some pat =>
      match pat.labs with
      | some labs =>
        match dget labs (lit "inr") with
        | some inr =>
          if !inr.isEmpty then
            some (do
              let v ← item inr (lit "value")
              let d ← item inr (lit "date")
              pure (lit "INR is " ++ fmtAtom v ++ lit " on " ++ fmtAtom d
                ++ lit ". Patient is adequately anticoagulated."))
          else inrLoop rest
        | none => inrLoop rest
      | none => inrLoop rest
    | none => inrLoop rest

/-- INR category (lines 600-605). -/
def inrBranch (ql : Str) (md : MockData) : Option (Except PyErr Str) :=
  if hasSub ql (lit "inr") || hasSub ql (lit "anticoag") then
    inrLoop (md.procedures.getD [])
  else none

/-- Potassium/electrolyte category (lines 607-613): all lookups use
defaulted `get`s, so a missing value renders as "N/A". -/
def potassiumBranch (ql : Str) (md : MockData) : Option (Except PyErr Str) :=
  if hasSub ql (lit "potassium") || hasSub ql (lit "electrolyte") then
    match dget (md.procedures.getD []) (lit "ep_ablation") with
    | some ep =>
      if ep.truthy then
        let labs := ((ep.patient.map Patient.labs).getD none).getD []
        let k := dgetD labs (lit "potassium") []
        let mg := dgetD labs (lit "magnesium") []
        some (.ok (lit "Potassium: " ++ fmtAtom (dgetD k (lit "value") (.str (lit "N/A")))
          ++ lit " " ++ fmtAtom (dgetD k (lit "unit") (.str (lit "")))
          ++ lit ", Magnesium: " ++ fmtAtom (dgetD mg (lit "value") (.str (lit "N/A")))
          ++ lit " " ++ fmtAtom (dgetD mg (lit "unit") (.str (lit "")))
          ++ lit ". Electrolytes are within normal range."))
      else none
    | none => none
  else none

/-- First `some` element of a list of options: the categories of the
responder return `some` when they produce an answer, and the first one
that does determines the result, like Python's early `return`s. -/
def firstSome {α : Type} : List (Option α) → Option α
  | [] => none
  | some a :: _ => some a
  | none :: rest => firstSome rest

/-- The rule-based responder `generate_rule_based_response` (app.py lines
519-615). An empty/unloaded dataset is `none`; otherwise the categories
are tried in source order and the first one that returns wins, with the
capability-listing message as the final default. -/
def generate_rule_based_response (query : Str) (mock_data : Option MockData) :
    Except PyErr Str :=
  let ql := lower query
  match mock_data with
  | none => .ok (lit "Medical data is not available at this time.")
  | some md =>
    (firstSome
      [vtkBranch ql, dicomBranch ql, closeRespBranch ql, openRespBranch ql,
       creatinineBranch ql md, contrastBranch ql md, allergyBranch ql md,
       inrBranch ql md, potassiumBranch ql md]).getD
      (.ok (lit "I can help you with patient data, lab values, procedural parameters, display controls, 3D visualization, and DICOM medical imaging. Please specify what information you need."))

example :
    generate_rule_based_response (lit "what is the creatinine") none =
      .ok (lit "Medical data is not available at this time.") := rfl

/-- True exactly on `ok` results. -/
def exceptOk {ε α : Type} : Except ε α → Bool
  | .ok _ => true
  | .error _ => false

/-- A named lab entry, when present and truthy, carries all the given
sub-field keys. -/
def entryComplete (labs : Dict LabEntry) (name : Str) (ks : List Str) : Bool :=
  match dget labs name with
  | some e => if !e.isEmpty then ks.all (fun k => (dget e k).isSome) else true
  | none => true

/-- A procedure whose present creatinine entry carries `value` and `unit`,
and whose present inr entry carries `value` and `date` — exactly the
sub-fields the responder subscripts without a default. -/
def wfProc (p : Procedure) : Bool :=
  match p.patient with
  | some pat =>
    match pat.labs with
    | some labs =>
      entryComplete labs (lit "creatinine") [lit "value", lit "unit"]
        && entryComplete labs (lit "inr") [lit "value", lit "date"]
    | none => true
  | none => true

/-- Dataset well-formedness: every procedure satisfies `wfProc`. Entries
may still be wholly absent or empty anywhere. -/
def wf (md : MockData) : Bool := (md.procedures.getD []).all (fun e => wfProc e.2)

lemma firstSome_getD_ok {l : List (Option (Except PyErr Str))}
    (h : ∀ x ∈ l, ∀ v, x = some v → exceptOk v = true)
    {d : Except PyErr Str} (hd : exceptOk d = true) :
    exceptOk ((firstSome l).getD d) = true := by
  induction l with
  | nil => simpa [firstSome]
  | cons a t ih =>
    cases a with
    | some v =>
      have hv := h (some v) (by simp) v rfl
      simpa [firstSome]
    | none =>
      have ht : ∀ x ∈ t, ∀ v, x = some v → exceptOk v = true :=
        fun x hx => h x (by simp [hx])
      simpa [firstSome] using ih ht

lemma vtkBranch_ok (ql : Str) : ∀ v, vtkBranch ql = some v → exceptOk v = true := by
  intro v hv
  unfold vtkBranch at hv
  repeat' split at hv
  all_goals cases hv
  all_goals rfl

lemma dicomBranch_ok (ql : Str) : ∀ v, dicomBranch ql = some v → exceptOk v = true := by
  intro v hv
  unfold dicomBranch at hv
  repeat' split at hv
  all_goals cases hv
  all_goals rfl

lemma closeRespBranch_ok (ql : Str) : ∀ v, closeRespBranch ql = some v → exceptOk v = true := by
  intro v hv
  unfold closeRespBranch at hv
  split at hv
  · cases hv; rfl
  · cases hv

lemma openRespBranch_ok (ql : Str) : ∀ v, openRespBranch ql = some v → exceptOk v = true := by
  intro v hv
  unfold openRespBranch at hv
  split at hv
  · cases hv; rfl
  · cases hv

lemma contrastBranch_ok (ql : Str) (md : MockData) :
    ∀ v, contrastBranch ql md = some v → exceptOk v = true := by
  intro v hv
  unfold contrastBranch at hv
  repeat' split at hv
  all_goals cases hv
  all_goals rfl

lemma potassiumBranch_ok (ql : Str) (md : MockData) :
    ∀ v, potassiumBranch ql md = some v → exceptOk v = true := by
  intro v hv
  unfold potassiumBranch at hv
  repeat' split at hv
  all_goals cases hv
  all_goals rfl

lemma allergyLoop_ok (l : List (Str × Procedure)) :
    ∀ v, allergyLoop l = some v → exceptOk v = true := by
  induction l with
  | nil => intro v hv; simp [allergyLoop] at hv
  | cons hd tl ih =>
    intro v hv
    obtain ⟨nm, proc⟩ := hd
    simp only [allergyLoop] at hv
    split at hv
    · cases hv; rfl
    · exact ih v hv

lemma allergyBranch_ok (ql : Str) (md : MockData) :
    ∀ v, allergyBranch ql md = some v → exceptOk v = true := by
  intro v hv
  unfold allergyBranch at hv
  split at hv
  · exact allergyLoop_ok (md.procedures.getD []) v hv
  · cases hv

lemma item_eq_ok {α : Type} {d : Dict α} {k : Str} {a : α} (h : dget d k = some a) :
    item d k = .ok a := by
  simp [item, h]

lemma entryComplete_fields {labs : Dict LabEntry} {name : Str} {ks : List Str}
    {e : LabEntry} (hec : entryComplete labs name ks = true)
    (hcr : dget labs name = some e) (hne : (!e.isEmpty) = true) :
    ∀ k ∈ ks, (dget e k).isSome = true := by
  unfold entryComplete at hec
  simp only [hcr] at hec
  rw [if_pos hne] at hec
  exact List.all_eq_true.mp hec

lemma creatinineLoop_ok (l : List (Str × Procedure))
    (hl : ∀ e ∈ l, wfProc e.2 = true) :
    ∀ v, creatinineLoop l = some v → exceptOk v = true := by
  induction l with
  | nil => intro v hv; simp [creatinineLoop] at hv
  | cons hd tl ih =>
    intro v hv
    obtain ⟨nm, proc⟩ := hd
    have hwf : wfProc proc = true := hl ⟨nm, proc⟩ (by simp)
    have htl : ∀ e ∈ tl, wfProc e.2 = true := fun e he => hl e (by simp [he])
    simp only [creatinineLoop] at hv
    split at hv
    next pat hp =>
      split at hv
      next labs hlb =>
        split at hv
        next creat hcr =>
          split at hv
          next hne =>
            have hec : entryComplete labs (lit "creatinine") [lit "value", lit "unit"] = true := by
              unfold wfProc at hwf
              simp only [hp, hlb, Bool.and_eq_true] at hwf
              exact hwf.1
            have hfields := entryComplete_fields hec hcr hne
            obtain ⟨a, ha⟩ := Option.isSome_iff_exists.mp (hfields (lit "value") (by simp))
            obtain ⟨b, hb⟩ := Option.isSome_iff_exists.mp (hfields (lit "unit") (by simp))
            cases hv
            rw [item_eq_ok ha, item_eq_ok hb]
            rfl
          next hne => exact ih htl v hv
        next hcr => exact ih htl v hv
      next hlb => exact ih htl v hv
    next hp => exact ih htl v hv

lemma creatinineBranch_ok (ql : Str) (md : MockData) (hwf : wf md = true) :
    ∀ v, creatinineBranch ql md = some v → exceptOk v = true := by
  intro v hv
  unfold creatinineBranch at hv
  split at hv
  · exact creatinineLoop_ok (md.procedures.getD [])
      (fun e he => List.all_eq_true.mp hwf e he) v hv
  · cases hv

lemma inrLoop_ok (l : List (Str × Procedure))
    (hl : ∀ e ∈ l, wfProc e.2 = true) :
    ∀ v, inrLoop l = some v → exceptOk v = true := by
  induction l with
  | nil => intro v hv; simp [inrLoop] at hv
  | cons hd tl ih =>
    intro v hv
    obtain ⟨nm, proc⟩ := hd
    have hwf : wfProc proc = true := hl ⟨nm, proc⟩ (by simp)
    have htl : ∀ e ∈ tl, wfProc e.2 = true := fun e he => hl e (by simp [he])
    simp only [inrLoop] at hv
    split at hv
    next pat hp =>
      split at hv
      next labs hlb =>
        split at hv
        next inr hcr =>
          split at hv
          next hne =>
            have hec : entryComplete labs (lit "inr") [lit "value", lit "date"] = true := by
              unfold wfProc at hwf
              simp only [hp, hlb, Bool.and_eq_true] at hwf
              exact hwf.2
            have hfields := entryComplete_fields hec hcr hne
            obtain ⟨a, ha⟩ := Option.isSome_iff_exists.mp (hfields (lit "value") (by simp))
            obtain ⟨b, hb⟩ := Option.isSome_iff_exists.mp (hfields (lit "date") (by simp))
            cases hv
            rw [item_eq_ok ha, item_eq_ok hb]
            rfl
          next hne => exact ih htl v hv
        next hcr => exact ih htl v hv
      next hlb => exact ih htl v hv
    next hp => exact ih htl v hv

lemma inrBranch_ok (ql : Str) (md : MockData) (hwf : wf md = true) :
    ∀ v, inrBranch ql md = some v → exceptOk v = true := by
  intro v hv
  unfold inrBranch at hv
  split at hv
  · exact inrLoop_ok (md.procedures.getD [])
      (fun e he => List.all_eq_true.mp hwf e he) v hv
  · cases hv

/-- C6 (amended): for every query and every dataset whose present lab
entries carry the sub-fields the responder subscripts (absent or empty
entries remain allowed everywhere), the responder returns a string and
never raises. -/
theorem responder_total_on_complete_entries (q : Str) (omd : Option MockData)
    (h : ∀ md, omd = some md → wf md = true) :
    exceptOk (generate_rule_based_response q omd) = true := by
  cases omd with
  | none => rfl
  | some md =>
    have hwf := h md rfl
    simp only [generate_rule_based_response]
    apply firstSome_getD_ok
    · intro x hx
      simp only [List.mem_cons, List.not_mem_nil, or_false] at hx
      rcases hx with rfl | rfl | rfl | rfl | rfl | rfl | rfl | rfl | rfl
      · exact vtkBranch_ok (lower q)
      · exact dicomBranch_ok (lower q)
      · exact closeRespBranch_ok (lower q)
      · exact openRespBranch_ok (lower q)
      · exact creatinineBranch_ok (lower q) md hwf
      · exact contrastBranch_ok (lower q) md
      · exact allergyBranch_ok (lower q) md
      · exact inrBranch_ok (lower q) md hwf
      · exact potassiumBranch_ok (lower q) md
    · rfl

/-- Dataset whose creatinine entry is present and non-empty but lacks the
`value` (and `unit`) sub-fields: one `pad_angioplasty` procedure whose
patient has `labs.creatinine = {"egfr": 55}` and nothing else. -/
def partialCreatinineData : MockData :=
  ⟨some [(lit "pad_angioplasty",
    ⟨some ⟨some [(lit "creatinine", [(lit "egfr", Atom.int 55)])], none⟩, none⟩)]⟩

/-- C6 counterexample: on a dataset with a partially populated creatinine
entry, the query "creatinine" makes the responder raise `KeyError` instead
of returning a string, refuting the claim that absent sub-fields are
always recovered locally. -/
theorem responder_raises_on_partial_entry :
    generate_rule_based_response (lit "creatinine") (some partialCreatinineData) =
      .error (.keyError (lit "value")) := rfl

/-- Fully populated variant of the same dataset:
`labs.creatinine = {"value": 1.2, "unit": "mg/dL", "egfr": 55}`. -/
def completeLabData : MockData :=
  ⟨some [(lit "pad_angioplasty",
    ⟨some ⟨some [(lit "creatinine",
      [(lit "value", Atom.rat (6 / 5)), (lit "unit", Atom.str (lit "mg/dL")),
       (lit "egfr", Atom.int 55)])], none⟩, none⟩)]⟩

theorem responder_total_on_complete_entries_witness :
    (∀ md, (some completeLabData : Option MockData) = some md → wf md = true) ∧
    exceptOk (generate_rule_based_response (lit "what is the creatinine")
      (some completeLabData)) = true := by
  have h : ∀ md, (some completeLabData : Option MockData) = some md → wf md = true := by
    intro md hmd
    cases hmd
    decide
  exact ⟨h, responder_total_on_complete_entries (lit "what is the creatinine")
    (some completeLabData) h⟩

/-- A minimal truthy dataset, modelling a JSON body holding an empty
procedures table. -/
def bareData : MockData := { procedures := some [] }

/-- C7 counterexample: the query "close 3d" matches the VTK keyword group
(it contains "3d") but none of that category's sub-branches, so the answer
is produced by the later panel-close category — not by the VTK category,
whose four fixed sentences all differ from the returned one. -/
theorem vtk_category_falls_through :
    generate_rule_based_response (lit "close 3d") (some bareData) =
      .ok (lit "Closing 3D visualization panel.") ∧
    lit "Closing 3D visualization panel." ≠
      lit "Loading VTK file for 3D visualization. The model will appear in the 3D viewer panel." ∧
    lit "Closing 3D visualization panel." ≠
      lit "Zooming 3D model view. Use voice commands to control the visualization." ∧
    lit "Closing 3D visualization panel." ≠
      lit "Resetting 3D view orientation to default position." ∧
    lit "Closing 3D visualization panel." ≠
      lit "Rotating 3D model view. Use voice commands to control the orientation." :=
  ⟨rfl, by decide, by decide, by decide, by decide⟩

/-- C7 (amended): for every query matching the VTK keyword group and at
least one of its sub-branch keywords, over any non-empty dataset, the
answer is the VTK category's, resolved by its first-matching sub-branch
(open/load/show, then zoom, then reset, then rotate); no later category
affects the result. -/
theorem vtk_category_first_match (q : Str) (md : MockData)
    (h1 : (hasSub (lower q) (lit "vtk") || hasSub (lower q) (lit "3d")
      || hasSub (lower q) (lit "cpo")) = true)
    (h2 : (hasSub (lower q) (lit "open") || hasSub (lower q) (lit "load")
      || hasSub (lower q) (lit "show") || hasSub (lower q) (lit "zoom")
      || hasSub (lower q) (lit "reset") || hasSub (lower q) (lit "rotate")) = true) :
    generate_rule_based_response q (some md) =
      .ok (if hasSub (lower q) (lit "open") || hasSub (lower q) (lit "load")
            || hasSub (lower q) (lit "show") then
          lit "Loading VTK file for 3D visualization. The model will appear in the 3D viewer panel."
        else if hasSub (lower q) (lit "zoom") then
          lit "Zooming 3D model view. Use voice commands to control the visualization."
        else if hasSub (lower q) (lit "reset") then
          lit "Resetting 3D view orientation to default position."
        else
          lit "Rotating 3D model view. Use voice commands to control the orientation.") := by
  simp only [generate_rule_based_response]
  have hv : vtkBranch (lower q) =
      some (.ok (if hasSub (lower q) (lit "open") || hasSub (lower q) (lit "load")
            || hasSub (lower q) (lit "show") then
          lit "Loading VTK file for 3D visualization. The model will appear in the 3D viewer panel."
        else if hasSub (lower q) (lit "zoom") then
          lit "Zooming 3D model view. Use voice commands to control the visualization."
        else if hasSub (lower q) (lit "reset") then
          lit "Resetting 3D view orientation to default position."
        else
          lit "Rotating 3D model view. Use voice commands to control the orientation.")) := by
    unfold vtkBranch
    rw [if_pos h1]
    cases ho : (hasSub (lower q) (lit "open") || hasSub (lower q) (lit "load")
        || hasSub (lower q) (lit "show")) <;>
      cases hz : hasSub (lower q) (lit "zoom") <;>
        cases hr : hasSub (lower q) (lit "reset") <;>
          cases hro : hasSub (lower q) (lit "rotate") <;>
            simp_all [ho, hz, hr, hro]
  rw [hv]
  rfl

theorem vtk_category_first_match_witness :
    ((hasSub (lower (lit "show 3d")) (lit "vtk") || hasSub (lower (lit "show 3d")) (lit "3d")
      || hasSub (lower (lit "show 3d")) (lit "cpo")) = true) ∧
    generate_rule_based_response (lit "show 3d") (some bareData) =
      .ok (lit "Loading VTK file for 3D visualization. The model will appear in the 3D viewer panel.") := by
  refine ⟨by decide, ?_⟩
  exact (vtk_category_first_match (lit "show 3d") bareData (by decide) (by decide)).trans
    (congrArg Except.ok (by decide))

/-- The `pad_angioplasty` system prompt (app.py lines 242-274). -/
def padPrompt : Str := lit "
    You are a sterile-field OR voice assistant for Peripheral Arterial Disease (PAD) angioplasty procedures.
    Your role is to provide concise, accurate information about patient data, procedural parameters, and safety alerts.

    Key responsibilities:
    - Provide patient lab values, imaging results, and vital signs
    - Monitor contrast usage and radiation exposure
    - Alert about contraindications and allergies
    - Support procedural decision-making with relevant data
    - Execute display commands for visual information
    - Control 3D visualization of VTK models and anatomical structures

    Available VTK/3D commands:
    - \"Open VTK file\" or \"Load CPO model\" - loads 3D visualization
    - \"Zoom 3D model\" - magnifies the 3D view
    - \"Reset 3D view\" - returns to default camera position
    - \"Rotate view\" - adjusts 3D orientation

    Available DICOM commands:
    - \"Show DICOM images\" or \"Load medical scan\" - displays medical images
    - \"Next image\" or \"Previous image\" - navigates through image series
    - \"Load series [ID]\" - loads specific DICOM series by ID

    Available Panel Control commands:
    - \"Close patient panel\" or \"Hide patient\" - closes patient information panel
    - \"Close monitoring\" or \"Hide vitals\" - closes procedural monitoring panel
    - \"Close 3D panel\" or \"Hide VTK\" - closes 3D visualization panel
    - \"Close DICOM\" or \"Hide image panel\" - closes DICOM viewer panel
    - \"Open patient panel\" or \"Open monitoring\" - reopens closed panels

    Always respond with short, clear medical language appropriate for the sterile field.
    Include relevant safety considerations in your responses.
    "

/-- The `ep_ablation` system prompt (lines 276-305). -/
def epPrompt : Str := lit "
    You are a sterile-field OR voice assistant for Electrophysiology (EP) ablation procedures.
    Your role is to provide critical electrophysiology data, procedural parameters, and safety information.

    Key responsibilities:
    - Provide cardiac history, ECG data, and electrolyte levels
    - Monitor ablation parameters and mapping progress
    - Alert about anticoagulation status and bleeding risks
    - Support procedural milestones and endpoint assessment
    - Execute display commands for cardiac data visualization
    - Control 3D visualization of cardiac structures and mapping data

    Available VTK/3D commands:
    - \"Show 3D heart model\" - displays cardiac anatomy
    - \"Reset cardiac view\" - returns to standard orientation

    Available DICOM commands:
    - \"Show cardiac images\" or \"Load heart scan\" - displays cardiac imaging
    - \"Next slice\" or \"Previous slice\" - navigates through cardiac series
    - \"Load cardiac CT\" - loads specific cardiac imaging series

    Available Panel Control commands:
    - \"Close patient panel\" or \"Hide patient\" - closes patient information panel
    - \"Close monitoring\" or \"Hide vitals\" - closes procedural monitoring panel
    - \"Close 3D panel\" or \"Hide VTK\" - closes 3D visualization panel
    - \"Close DICOM\" or \"Hide image panel\" - closes DICOM viewer panel
    - \"Open patient panel\" or \"Open monitoring\" - reopens closed panels

    Always respond with precise EP terminology and include procedural safety considerations.
    "

/-- The prompt table `SYSTEM_PROMPTS` (lines 241-306). -/
def SYSTEM_PROMPTS : Dict Str :=
  [(lit "pad_angioplasty", padPrompt), (lit "ep_ablation", epPrompt)]

def lcurl : Str := lit "\x7b"

def rcurl : Str := lit "\x7d"

def quoteJ (s : Str) : Str := lit "\"" ++ s ++ lit "\""

def dumpAtomJ : Atom → Str
  | .int n => lit (toString n)
  | .rat q => lit (toString q)
  | .str s => quoteJ s

def dumpDictJ {α : Type} (f : α → Str) (d : Dict α) : Str :=
  lcurl ++ ((d.map (fun e => quoteJ e.1 ++ lit ": " ++ f e.2)).intersperse (lit ", ")).flatten
    ++ rcurl

def dumpListJ (l : List Str) : Str :=
  lit "[" ++ ((l.map quoteJ).intersperse (lit ", ")).flatten ++ lit "]"

/-- Models `json.dumps` on a procedure record (line 801). The serialized
text only feeds the language-model prompt; no verified property depends on
its exact shape. -/
def dumpsProcedure (p : Procedure) : Str :=
  dumpDictJ (fun x => x)
    ((match p.patient with
      | some pat =>
        [(lit "patient", dumpDictJ (fun x => x)
          ((match pat.labs with
            | some labs => [(lit "labs", dumpDictJ (dumpDictJ dumpAtomJ) labs)]
            | none => [])
           ++ (match pat.allergies with
            | some al => [(lit "allergies", dumpListJ al)]
            | none => [])))]
      | none => [])
     ++ (match p.intraopData with
      | some io => [(lit "intraopData", dumpDictJ (fun n => lit (toString n)) io)]
      | none => []))

/-- Failure of the generative-text capability. -/
inductive LlmErr where
  | failed
  deriving DecidableEq

/-- Failure of the speech-synthesis capability. -/
inductive TtsErr where
  | failed
  deriving DecidableEq

/-- Python `s.strip()`. -/
def strip (s : Str) : Str :=
  ((s.dropWhile Char.isWhitespace).reverse.dropWhile Char.isWhitespace).reverse

/-- `get_llm_response` (app.py lines 500-516): the configured generative
model is `none` when unavailable, otherwise carries the outcome its
`generate_content` call would produce. An unavailable or failing model
falls back to the rule-based responder; the outer exception handler
re-invokes the same deterministic fallback, so the value is identical
either way. -/
def get_llm_response (gemini : Option (Except LlmErr Str)) (prompt : Str)
    (mock_data : Option MockData) : Except PyErr Str :=
  match gemini with
  | some (.ok text) => .ok (strip text)
  | some (.error _) => generate_rule_based_response prompt mock_data
  | none => generate_rule_based_response prompt mock_data

/-- `generate_speech` (lines 204-238): `client` is whether the TTS client
is initialized; `synth` is the synthesis capability, yielding an audio
file path or a failure for the given text and voice. Absence of the client
or failure of the call degrades to `none`, never an error. -/
def generate_speech (client : Bool) (synth : Str → Str → Except TtsErr Str)
    (text voice : Str) : Option Str :=
  if client then
    match synth text voice with
    | .ok path => some path
    | .error _ => none
  else none

/-- The `VoiceRequest` request model (lines 77-80): `transcript` defaults
to `None`. -/
structure VoiceRequest where
  transcript : Option Str := none
  procedure_type : Str
  command_type : Str := lit "query"
  deriving DecidableEq

/-- The `VoiceResponse` envelope (lines 88-94). -/
structure VoiceResponse where
  transcript : Str
  response : Str
  visual_data : Option (Dict LabEntry) := none
  display_commands : Option (List DisplayCommand) := none
  alert_level : Str := lit "info"
  audio_url : Option Str := none
  deriving DecidableEq

/-- The `/ask` handler's failure mode: its `except` clause converts any
exception into an HTTP 500 error response (lines 837-839). -/
inductive ProcErr where
  | http500 (cause : PyErr)
  deriving DecidableEq

/-- Python `os.path.basename`. -/
def basename (p : Str) : Str := (p.reverse.takeWhile (fun c => !(c == '/'))).reverse

/-- The context-aware prompt of the `/ask` handler (lines 794-803): the
procedure's system prompt (defaulting to the PAD one), the serialized
patient record when the dataset holds the procedure type, and the raw
transcript (an absent transcript renders as "None" in the f-string). -/
def buildPrompt (req : VoiceRequest) (mock_data : Option MockData) : Str :=
  let system_prompt := dgetD SYSTEM_PROMPTS req.procedure_type padPrompt
  let context_data :=
    match mock_data with
    | some md =>
      match dget (md.procedures.getD []) req.procedure_type with
      | some p => lit "Current patient: " ++ dumpsProcedure p
      | none => []
    | none => []
  system_prompt ++ lit "\n\nPatient Data:\n" ++ context_data
    ++ lit "\n\nQuery: "
    ++ (match req.transcript with | some t => t | none => lit "None")
    ++ lit "\n\nResponse:"

/-- The response assembler `process_voice_command` (app.py lines 787-839),
parameterized by the generative and speech capabilities. Evaluation order
mirrors the source: parse, prompt build, language model (or fallback),
speech synthesis, then visual data and alert level — the last two
subscript `request.transcript.lower()` directly, raising
`AttributeError` when the transcript is absent. -/
def process_voice_command (req : VoiceRequest) (gemini : Option (Except LlmErr Str))
    (tts_client : Bool) (synth : Str → Str → Except TtsErr Str)
    (mock_data : Option MockData) : Except ProcErr VoiceResponse :=
  let parsed := parse_command ((req.transcript).getD []) req.procedure_type
  match get_llm_response gemini (buildPrompt req mock_data) mock_data with
  | .error e => .error (.http500 e)
  | .ok llm_response =>
    let audio_path := generate_speech tts_client synth llm_response (lit "alloy")
    match req.transcript with
    | none => .error (.http500 .attributeError)
    | some t =>
      let visual_data :=
        if hasSub (lower t) (lit "lab") then
          match mock_data with
          | some md =>
            match dget (md.procedures.getD []) req.procedure_type with
            | some p => some (((p.patient.map Patient.labs).getD none).getD [])
            | none => none
          | none => none
        else none
      let alert_level := lit "info"
      let alert_level :=
        if hasSub (lower t) (lit "allerg") || hasSub (lower t) (lit "contraindic") then
          lit "warning"
        else alert_level
      let alert_level :=
        if hasSub (lower llm_response) (lit "critical")
            || hasSub (lower llm_response) (lit "emergency") then
          lit "critical"
        else alert_level
      .ok { transcript := t, response := llm_response, visual_data := visual_data,
            display_commands := some parsed.display_commands,
            alert_level := alert_level,
            audio_url := audio_path.map (fun p => lit "/audio/" ++ basename p) }

/-- C8: external capability failures degrade rather than fail the request:
an unavailable or raising generative backend makes the answer come from
the rule-based responder, and an unavailable or failing speech synthesis
yields a normally assembled success response whose audio reference is
absent. -/
theorem capability_failure_degrades :
    (∀ p omd, get_llm_response none p omd = generate_rule_based_response p omd) ∧
    (∀ e p omd, get_llm_response (some (.error e)) p omd =
      generate_rule_based_response p omd) ∧
    (∀ synth text voice, generate_speech false synth text voice = none) ∧
    (∀ (synth : Str → Str → Except TtsErr Str) text voice,
      synth text voice = .error .failed → generate_speech true synth text voice = none) ∧
    (∀ req t ans tts synth omd, req.transcript = some t →
      generate_speech tts synth (strip ans) (lit "alloy") = none →
      process_voice_command req (some (.ok ans)) tts synth omd =
        .ok { transcript := t, response := strip ans,
              visual_data := (if hasSub (lower t) (lit "lab") then
                  match omd with
                  | some md =>
                    match dget (md.procedures.getD []) req.procedure_type with
                    | some p => some (((p.patient.map Patient.labs).getD none).getD [])
                    | none => none
                  | none => none
                else none),
              display_commands := some (parse_command t req.procedure_type).display_commands,
              alert_level := (if hasSub (lower (strip ans)) (lit "critical")
                    || hasSub (lower (strip ans)) (lit "emergency") then lit "critical"
                  else if hasSub (lower t) (lit "allerg")
                      || hasSub (lower t) (lit "contraindic") then lit "warning"
                  else lit "info"),
              audio_url := none }) := by
  refine ⟨fun p omd => rfl, fun e p omd => rfl, fun synth text voice => rfl, ?_, ?_⟩
  · intro synth text voice h
    simp [generate_speech, h]
  · intro req t ans tts synth omd ht hs
    simp only [process_voice_command, ht, get_llm_response, Option.getD, hs, Option.map]

def synthFail : Str → Str → Except TtsErr Str := fun _ _ => .error .failed

def reqHello : VoiceRequest :=
  { transcript := some (lit "hello"), procedure_type := lit "pad_angioplasty" }

def respHello : VoiceResponse :=
  { transcript := lit "hello", response := lit "All clear",
    visual_data := none, display_commands := some [],
    alert_level := lit "info", audio_url := none }

theorem capability_failure_degrades_witness :
    (some (lit "hello") : Option Str) = some (lit "hello") ∧
    process_voice_command reqHello (some (.ok (lit "All clear"))) false synthFail none =
      .ok respHello := by
  refine ⟨rfl, ?_⟩
  have h := capability_failure_degrades.2.2.2.2 reqHello (lit "hello") (lit "All clear")
    false synthFail none rfl rfl
  exact h.trans (congrArg Except.ok (by decide))

/-- C9: for every successfully assembled response, `alert_level` is
"critical" when the answer text mentions "critical" or "emergency"
(overriding everything else), otherwise "warning" when the query
transcript mentions "allerg" or "contraindic", otherwise "info". -/
theorem alert_level_resolution (req : VoiceRequest) (t : Str)
    (gemini : Option (Except LlmErr Str)) (tts : Bool)
    (synth : Str → Str → Except TtsErr Str) (omd : Option MockData)
    (r : VoiceResponse) (ht : req.transcript = some t)
    (hr : process_voice_command req gemini tts synth omd = .ok r) :
    r.alert_level =
      (if hasSub (lower r.response) (lit "critical")
          || hasSub (lower r.response) (lit "emergency") then lit "critical"
       else if hasSub (lower t) (lit "allerg") || hasSub (lower t) (lit "contraindic") then
         lit "warning"
       else lit "info") := by
  unfold process_voice_command at hr
  split at hr
  next e => cases hr
  next llm =>
    simp only [ht] at hr
    cases hr
    rfl

theorem alert_level_resolution_witness :
    (reqHello.transcript = some (lit "hello")) ∧
    process_voice_command reqHello (some (.ok (lit "All clear"))) false synthFail none =
      .ok respHello ∧
    respHello.alert_level = lit "info" := by
  have h : process_voice_command reqHello (some (.ok (lit "All clear"))) false synthFail none =
      .ok respHello := by rfl
  exact ⟨rfl, h,
    (alert_level_resolution reqHello (lit "hello") (some (.ok (lit "All clear"))) false
      synthFail none respHello rfl h).trans (by decide)⟩

/-- C10: a request whose transcript is absent is parsed with the empty
string but still fails: the visual-data/alert-level steps dereference the
missing transcript, and the handler surfaces an error response — an
`AttributeError` wrapped as HTTP 500 whenever the language model itself
succeeded — instead of an HTTP-success-shaped degraded response. -/
theorem missing_transcript_request_failure (pt ct : Str)
    (gemini : Option (Except LlmErr Str)) (tts : Bool)
    (synth : Str → Str → Except TtsErr Str) (omd : Option MockData) :
    (exceptOk (process_voice_command
      { transcript := none, procedure_type := pt, command_type := ct }
      gemini tts synth omd) = false) ∧
    (∀ ans, gemini = some (.ok ans) →
      process_voice_command { transcript := none, procedure_type := pt, command_type := ct }
        gemini tts synth omd = .error (.http500 .attributeError)) := by
  constructor
  · simp only [process_voice_command]
    split
    next e => rfl
    next llm => rfl
  · intro ans hg
    subst hg
    rfl

theorem missing_transcript_request_failure_witness :
    ((some (.ok (lit "hi")) : Option (Except LlmErr Str)) = some (.ok (lit "hi"))) ∧
    process_voice_command
      { transcript := none, procedure_type := lit "pad_angioplasty",
        command_type := lit "query" }
      (some (.ok (lit "hi"))) false synthFail none =
      .error (.http500 .attributeError) :=
  ⟨rfl, (missing_transcript_request_failure (lit "pad_angioplasty") (lit "query")
    (some (.ok (lit "hi"))) false synthFail none).2 (lit "hi") rfl⟩
